import Mathlib

/-!
Shallow embedding of `src/main.py` (ultra-mcp-ss), a FastAPI proxy that
translates REST requests into calls against two external APIs: a SmartScreen
display-control API (nine write operations) and the YouTube search API.

Modelling conventions:
* JSON values are the inductive `Json` below (strings, integers, arrays,
  objects).  The repository only ever builds and inspects these four shapes;
  floats and booleans never occur in the payloads or in the vendor error
  codes the code examines, so they are not modelled.
* An outbound HTTP call's outcome is `HttpOutcome`: either a transport
  error (an `httpx.RequestError` is raised) or a response with a status code
  and a body.  The body is `Option Json`: `none` means `response.json()`
  would raise (body not decodable), `some j` is the decoded value.
* Python code that can raise an exception which the repository does not
  catch is modelled with `PyResult`: `.ok v` is a normal return, `.exc m` is
  an uncaught exception propagating to the framework.
* Each client method takes the outcome of its single outbound POST as an
  explicit argument and returns the JSON payload it transmits paired with
  the result of the source's response check.  Each FastAPI endpoint handler
  likewise takes the outbound outcome and returns an `EndpointResult`.
-/

/-- JSON values as built and inspected by `main.py`. -/
inductive Json where
  | str (s : String)
  | int (n : Int)
  | arr (xs : List Json)
  | obj (kvs : List (String × Json))

/-- Python `d.get(k)` on a decoded JSON value: a key lookup that yields
`none` when the value is not an object or the key is absent. -/
def Json.lookup : Json → String → Option Json
  | Json.obj kvs, k => kvs.lookup k
  | _, _ => none

/-- Outcome of one outbound HTTP call (`httpx` GET or POST).
`transportError` models a raised `httpx.RequestError` (DNS failure, timeout,
connection refused); `response status body` models a received response,
whose body decodes to `some j`, or to `none` when `response.json()` would
raise. -/
inductive HttpOutcome where
  | transportError
  | response (status : Nat) (body : Option Json)

/-- Result of running a piece of Python code: a normal return value, or an
uncaught exception (named by `msg`) propagating to the web framework. -/
inductive PyResult (α : Type) where
  | ok (a : α)
  | exc (msg : String)

/-- Python `result.get("ErrCode", -1) != 0` applied to the looked-up value
(after the default has been filled in): an integer compares by value, and
any other modelled JSON value is `!= 0`. -/
def pyNeZero : Json → Bool
  | Json.int n => !(n == 0)
  | _ => true

/-- The response check repeated verbatim in all nine `SmartScreenClient`
methods (`main.py` lines 166-174 and its eight copies): a non-200 status
returns `False` before the body is ever parsed; otherwise the body is
decoded (`response.json()`, an uncaught exception if it fails), `.get` is
taken on it (an uncaught `AttributeError` if it is not an object), and the
method returns `True` iff `result.get("ErrCode", -1) != 0` is false. -/
def vendorSuccess : HttpOutcome → PyResult Bool
  | HttpOutcome.transportError => PyResult.exc "httpx.RequestError"
  | HttpOutcome.response status body =>
    if status ≠ 200 then PyResult.ok false
    else
      match body with
      | none => PyResult.exc "JSONDecodeError"
      | some (Json.obj kvs) =>
        if pyNeZero ((kvs.lookup "ErrCode").getD (Json.int (-1))) then
          PyResult.ok false
        else PyResult.ok true
      | some _ => PyResult.exc "AttributeError"

namespace SmartScreenClient

/-- The "drop" vendor command built in `SmartScreenClient.drop`
(`main.py` lines 145-155). -/
def dropCommand (item : String) : Json :=
  Json.obj [("cmd", Json.str "drop"), ("type", Json.str "url"),
    ("src", Json.arr [Json.str item]), ("duration", Json.str "0"),
    ("frame", Json.str "main"), ("animate", Json.str "fade"),
    ("aniduration", Json.str "2"), ("pmode", Json.str "loop"),
    ("bgcolor", Json.str "white")]

/-- `SmartScreenClient.drop` (`main.py` lines 143-174): returns the JSON
payload it POSTs and the result of the shared response check.  The `x` and
`y` arguments are accepted but never used by the source. -/
def drop (item display : String) (x y : Int) (net : HttpOutcome) :
    Json × PyResult Bool :=
  (Json.obj [("to", Json.obj [("name", Json.str display)]),
    ("data", dropCommand item)], vendorSuccess net)

/-- The "notify" vendor command built in `SmartScreenClient.notify`
(`main.py` lines 178-184).  The caller's `priority` is not consulted. -/
def notifyCommand (message : String) : Json :=
  Json.obj [("cmd", Json.str "notify"), ("msg", Json.str message),
    ("duration", Json.str "30"), ("color", Json.str "blue"),
    ("size", Json.str "3")]

/-- `SmartScreenClient.notify` (`main.py` lines 176-201). -/
def notify (message display priority : String) (net : HttpOutcome) :
    Json × PyResult Bool :=
  (Json.obj [("to", Json.obj [("name", Json.str display)]),
    ("data", notifyCommand message)], vendorSuccess net)

/-- The "toast" vendor command built in `SmartScreenClient.toast`
(`main.py` lines 205-212). -/
def toastCommand (message heading icon transition duration : String) : Json :=
  Json.obj [("cmd", Json.str "toast"), ("msg", Json.str message),
    ("heading", Json.str heading), ("icon", Json.str icon),
    ("transition", Json.str transition), ("duration", Json.str duration)]

/-- `SmartScreenClient.toast` (`main.py` lines 203-229). -/
def toast (message display heading icon transition duration : String)
    (net : HttpOutcome) : Json × PyResult Bool :=
  (Json.obj [("to", Json.obj [("name", Json.str display)]),
    ("data", toastCommand message heading icon transition duration)],
   vendorSuccess net)

/-- The "marquee" vendor command built in `SmartScreenClient.marquee`
(`main.py` lines 233-240). -/
def marqueeCommand (message duration color size bgcolor : String) : Json :=
  Json.obj [("cmd", Json.str "marquee"), ("msg", Json.str message),
    ("duration", Json.str duration), ("color", Json.str color),
    ("size", Json.str size), ("bgcolor", Json.str bgcolor)]

/-- `SmartScreenClient.marquee` (`main.py` lines 231-257). -/
def marquee (message display duration color size bgcolor : String)
    (net : HttpOutcome) : Json × PyResult Bool :=
  (Json.obj [("to", Json.obj [("name", Json.str display)]),
    ("data", marqueeCommand message duration color size bgcolor)],
   vendorSuccess net)

/-- The "text" vendor command built in `SmartScreenClient.text`
(`main.py` lines 262-273). -/
def textCommand (message duration color size bgcolor align frame animate
    aniduration : String) : Json :=
  Json.obj [("cmd", Json.str "text"), ("msg", Json.str message),
    ("duration", Json.str duration), ("color", Json.str color),
    ("size", Json.str size), ("bgcolor", Json.str bgcolor),
    ("align", Json.str align), ("frame", Json.str frame),
    ("animate", Json.str animate), ("aniduration", Json.str aniduration)]

/-- `SmartScreenClient.text` (`main.py` lines 259-290). -/
def text (message display duration color size bgcolor align frame animate
    aniduration : String) (net : HttpOutcome) : Json × PyResult Bool :=
  (Json.obj [("to", Json.obj [("name", Json.str display)]),
    ("data", textCommand message duration color size bgcolor align frame
      animate aniduration)], vendorSuccess net)

/-- The "app" vendor command built in `SmartScreenClient.app`
(`main.py` lines 294-299). -/
def appCommand (url duration frame : String) : Json :=
  Json.obj [("cmd", Json.str "app"), ("url", Json.str url),
    ("duration", Json.str duration), ("frame", Json.str frame)]

/-- `SmartScreenClient.app` (`main.py` lines 292-316). -/
def app (url display duration frame : String) (net : HttpOutcome) :
    Json × PyResult Bool :=
  (Json.obj [("to", Json.obj [("name", Json.str display)]),
    ("data", appCommand url duration frame)], vendorSuccess net)

/-- The "touch" vendor command built in `SmartScreenClient.touch`
(`main.py` lines 320-324). -/
def touchCommand (option value : String) : Json :=
  Json.obj [("cmd", Json.str "touch"), ("option", Json.str option),
    ("value", Json.str value)]

/-- `SmartScreenClient.touch` (`main.py` lines 318-341). -/
def touch (option display value : String) (net : HttpOutcome) :
    Json × PyResult Bool :=
  (Json.obj [("to", Json.obj [("name", Json.str display)]),
    ("data", touchCommand option value)], vendorSuccess net)

/-- The "status" vendor command built in `SmartScreenClient.status`
(`main.py` lines 345-349). -/
def statusCommand (option value : String) : Json :=
  Json.obj [("cmd", Json.str "status"), ("option", Json.str option),
    ("value", Json.str value)]

/-- `SmartScreenClient.status` (`main.py` lines 343-366). -/
def status (option display value : String) (net : HttpOutcome) :
    Json × PyResult Bool :=
  (Json.obj [("to", Json.obj [("name", Json.str display)]),
    ("data", statusCommand option value)], vendorSuccess net)

/-- The "dj" vendor command built in `SmartScreenClient.dj`
(`main.py` lines 370-374). -/
def djCommand (option value : String) : Json :=
  Json.obj [("cmd", Json.str "dj"), ("option", Json.str option),
    ("value", Json.str value)]

/-- `SmartScreenClient.dj` (`main.py` lines 368-391). -/
def dj (option display value : String) (net : HttpOutcome) :
    Json × PyResult Bool :=
  (Json.obj [("to", Json.obj [("name", Json.str display)]),
    ("data", djCommand option value)], vendorSuccess net)

end SmartScreenClient

/-- The destination envelope shape stated by the spec:
`\x7bto: \x7bname: <display>\x7d, data: <command>\x7d`. -/
def envelope (display : String) (command : Json) : Json :=
  Json.obj [("to", Json.obj [("name", Json.str display)]),
    ("data", command)]

/-- `DropRequest` (`main.py` lines 68-72). -/
structure DropRequest where
  display : String
  item : String
  x : Int := 0
  y : Int := 0

/-- `NotifyRequest` (`main.py` lines 74-77). -/
structure NotifyRequest where
  display : String
  message : String
  priority : String

/-- `ToastRequest` (`main.py` lines 79-85). -/
structure ToastRequest where
  display : String
  message : String
  heading : String
  icon : String
  transition : String
  duration : String := "5"

/-- `MarqueeRequest` (`main.py` lines 87-93). -/
structure MarqueeRequest where
  display : String
  message : String
  duration : String := "30"
  color : String
  size : String := "3"
  bgcolor : String

/-- `TextRequest` (`main.py` lines 95-105). -/
structure TextRequest where
  display : String
  message : String
  duration : String := "30"
  color : String
  size : String := "3"
  bgcolor : String
  align : String
  frame : String
  animate : String
  aniduration : String := "2"

/-- `AppRequest` (`main.py` lines 107-111). -/
structure AppRequest where
  display : String
  url : String
  duration : String := "0"
  frame : String

/-- `TouchRequest` (`main.py` lines 113-116). -/
structure TouchRequest where
  display : String
  option : String
  value : String

/-- `StatusRequest` (`main.py` lines 118-121). -/
structure StatusRequest where
  display : String
  option : String
  value : String

/-- `DjRequest` (`main.py` lines 123-126). -/
structure DjRequest where
  display : String
  option : String
  value : String

/-- What the caller of an endpoint observes: a 200 JSON body, a deliberate
`HTTPException` with a status code and a `detail` string, or an exception
that escaped the handler unhandled (the framework then produces its own
generic internal-server-error, not an `HTTPException` detail). -/
inductive EndpointResult where
  | ok (body : Json)
  | httpError (status : Nat) (detail : String)
  | unhandled (msg : String)

/-- `POST /drop` handler `drop_item` (`main.py` lines 429-449). -/
def drop_item (req : DropRequest) (net : HttpOutcome) : EndpointResult :=
  match (SmartScreenClient.drop req.item req.display req.x req.y net).2 with
  | PyResult.exc m => EndpointResult.unhandled m
  | PyResult.ok false => EndpointResult.httpError 500 "Failed to drop item"
  | PyResult.ok true => EndpointResult.ok (Json.obj
      [("message", Json.str "Item dropped successfully"),
       ("item", Json.str req.item), ("x", Json.int req.x),
       ("y", Json.int req.y)])

/-- `POST /notify` handler `notify_user` (`main.py` lines 452-469). -/
def notify_user (req : NotifyRequest) (net : HttpOutcome) : EndpointResult :=
  match (SmartScreenClient.notify req.message req.display req.priority net).2 with
  | PyResult.exc m => EndpointResult.unhandled m
  | PyResult.ok false =>
      EndpointResult.httpError 500 "Failed to send notification"
  | PyResult.ok true => EndpointResult.ok (Json.obj
      [("message", Json.str "Notification sent successfully"),
       ("notification", Json.str req.message)])

/-- `POST /toast` handler `toast_message` (`main.py` lines 472-492). -/
def toast_message (req : ToastRequest) (net : HttpOutcome) : EndpointResult :=
  match (SmartScreenClient.toast req.message req.display req.heading req.icon
      req.transition req.duration net).2 with
  | PyResult.exc m => EndpointResult.unhandled m
  | PyResult.ok false =>
      EndpointResult.httpError 500 "Failed to show toast message"
  | PyResult.ok true => EndpointResult.ok (Json.obj
      [("message", Json.str "Toast displayed successfully"),
       ("toast", Json.str req.message)])

/-- `POST /marquee` handler `marquee_text` (`main.py` lines 494-513). -/
def marquee_text (req : MarqueeRequest) (net : HttpOutcome) : EndpointResult :=
  match (SmartScreenClient.marquee req.message req.display req.duration
      req.color req.size req.bgcolor net).2 with
  | PyResult.exc m => EndpointResult.unhandled m
  | PyResult.ok false =>
      EndpointResult.httpError 500 "Failed to show marquee text"
  | PyResult.ok true => EndpointResult.ok (Json.obj
      [("message", Json.str "Marquee displayed successfully"),
       ("marquee", Json.str req.message)])

/-- `POST /text` handler `display_text` (`main.py` lines 515-537). -/
def display_text (req : TextRequest) (net : HttpOutcome) : EndpointResult :=
  match (SmartScreenClient.text req.message req.display req.duration req.color
      req.size req.bgcolor req.align req.frame req.animate
      req.aniduration net).2 with
  | PyResult.exc m => EndpointResult.unhandled m
  | PyResult.ok false => EndpointResult.httpError 500 "Failed to show text"
  | PyResult.ok true => EndpointResult.ok (Json.obj
      [("message", Json.str "Text displayed successfully"),
       ("text", Json.str req.message)])

/-- `POST /app` handler `launch_app` (`main.py` lines 539-556). -/
def launch_app (req : AppRequest) (net : HttpOutcome) : EndpointResult :=
  match (SmartScreenClient.app req.url req.display req.duration
      req.frame net).2 with
  | PyResult.exc m => EndpointResult.unhandled m
  | PyResult.ok false => EndpointResult.httpError 500 "Failed to launch app"
  | PyResult.ok true => EndpointResult.ok (Json.obj
      [("message", Json.str "App launched successfully"),
       ("url", Json.str req.url)])

/-- `POST /touch` handler `touch_command` (`main.py` lines 558-574). -/
def touch_command (req : TouchRequest) (net : HttpOutcome) : EndpointResult :=
  match (SmartScreenClient.touch req.option req.display req.value net).2 with
  | PyResult.exc m => EndpointResult.unhandled m
  | PyResult.ok false =>
      EndpointResult.httpError 500 "Failed to execute touch command"
  | PyResult.ok true => EndpointResult.ok (Json.obj
      [("message", Json.str "Touch command executed successfully"),
       ("option", Json.str req.option), ("value", Json.str req.value)])

/-- `POST /status` handler `status_command` (`main.py` lines 576-592). -/
def status_command (req : StatusRequest) (net : HttpOutcome) : EndpointResult :=
  match (SmartScreenClient.status req.option req.display req.value net).2 with
  | PyResult.exc m => EndpointResult.unhandled m
  | PyResult.ok false =>
      EndpointResult.httpError 500 "Failed to execute status command"
  | PyResult.ok true => EndpointResult.ok (Json.obj
      [("message", Json.str "Status command executed successfully"),
       ("option", Json.str req.option), ("value", Json.str req.value)])

/-- `POST /dj` handler `dj_command` (`main.py` lines 594-612). -/
def dj_command (req : DjRequest) (net : HttpOutcome) : EndpointResult :=
  match (SmartScreenClient.dj req.option req.display req.value net).2 with
  | PyResult.exc m => EndpointResult.unhandled m
  | PyResult.ok false =>
      EndpointResult.httpError 500 "Failed to execute DJ command"
  | PyResult.ok true => EndpointResult.ok (Json.obj
      [("message", Json.str "DJ command executed successfully"),
       ("option", Json.str req.option), ("value", Json.str req.value)])

/-- Characters `urllib.parse.quote_plus` never escapes: Python's
`_ALWAYS_SAFE` set (ASCII letters, digits, and the four marks below); the
`quote_plus` call in `main.py` line 30 passes no extra safe characters. -/
def isAlwaysSafe (c : Char) : Bool :=
  c.isAlpha || c.isDigit || c = '_' || c = '.' || c = '-' || c = '~'

/-- Uppercase hexadecimal digit, as produced by `urllib.parse.quote`. -/
def hexUpper (n : Nat) : Char :=
  if n < 10 then Char.ofNat (48 + n) else Char.ofNat (55 + n)

/-- How `urllib.parse.quote_plus` rewrites one character: a safe character
is kept, a space becomes a plus sign, and any other character becomes a
percent escape.  (Python escapes each UTF-8 byte; for ASCII input — which
covers every character this development evaluates — the byte is the
character code.  A character outside ASCII is abstracted as one escape
triple, still a non-identity rewrite as in Python.) -/
def quotePlusChar (c : Char) : List Char :=
  if isAlwaysSafe c then [c]
  else if c = ' ' then ['+']
  else ['%', hexUpper (c.toNat / 16), hexUpper (c.toNat % 16)]

/-- `quote_plus` over a character list. -/
def quotePlusList : List Char → List Char
  | [] => []
  | c :: cs => quotePlusChar c ++ quotePlusList cs

/-- `urllib.parse.quote_plus(query)` as called in `main.py` line 30. -/
def quotePlus (s : String) : String :=
  String.mk (quotePlusList s.data)

/-- The query parameters handed to `httpx` for the YouTube search
(`main.py` lines 30-38): note `q` carries the already-encoded query. -/
def searchParams (apiKey query : String) : List (String × Json) :=
  [("part", Json.str "snippet"), ("q", Json.str (quotePlus query)),
   ("key", Json.str apiKey), ("type", Json.str "video"),
   ("maxResults", Json.int 1), ("order", Json.str "relevance")]

/-- Python truthiness of the optional `YOUTUBE_API_KEY` environment value:
`None` and the empty string are falsy. -/
def pyStrTruthy : Option String → Bool
  | none => false
  | some s => !s.isEmpty

/-- Extraction `data["items"][0].get("id", \x7b\x7d).get("videoId")` from
`main.py` line 49, applied to the first item.  A shape for which Python
would raise (`.get` on a non-dict) is observationally `none` here because
the surrounding `except Exception` handler turns any such exception into a
`None` return; a non-string `videoId` value never occurs in the modelled
API responses. -/
def videoIdOf (item : Json) : Option String :=
  match item with
  | Json.obj kvs =>
    match (kvs.lookup "id").getD (Json.obj []) with
    | Json.obj kvs2 =>
      match kvs2.lookup "videoId" with
      | some (Json.str v) => some v
      | _ => none
    | _ => none
  | _ => none

/-- `search_youtube_video` (`main.py` lines 21-64): returns the video id
(or `None`) paired with the number of outbound network calls performed.
A missing/empty API key returns before any call.  `raise_for_status`
raises `HTTPStatusError` for any non-2xx status; that, a transport error,
an undecodable body, and a result shape without a usable video id all end
as `None` through the `except` handlers / the safe `.get` chain. -/
def search_youtube_video (apiKey : Option String) (query : String)
    (net : HttpOutcome) : Option String × Nat :=
  if !pyStrTruthy apiKey then (none, 0)
  else
    match net with
    | HttpOutcome.transportError => (none, 1)
    | HttpOutcome.response stat body =>
      if stat < 200 || 300 ≤ stat then (none, 1)
      else
        match body with
        | none => (none, 1)
        | some data =>
          match data.lookup "items" with
          | some (Json.arr (first :: _)) => (videoIdOf first, 1)
          | _ => (none, 1)

/-- `GET /search-youtube` handler `get_youtube_video_link`
(`main.py` lines 400-419), paired with the number of outbound network
calls.  The handler checks the key itself before delegating; a falsy
returned id (None or the empty string) becomes the 404. -/
def get_youtube_video_link (apiKey : Option String) (query : String)
    (net : HttpOutcome) : EndpointResult × Nat :=
  if !pyStrTruthy apiKey then
    (EndpointResult.httpError 500
      "API key configuration error. Please check server logs.", 0)
  else
    match search_youtube_video apiKey query net with
    | (some v, n) =>
      if !v.isEmpty then
        (EndpointResult.ok (Json.obj [("video_url",
          Json.str ("https://www.youtube.com/watch?v=" ++ v))]), n)
      else
        (EndpointResult.httpError 404
          ("No relevant YouTube video found for query: '" ++ query ++ "'"), n)
    | (none, n) =>
      (EndpointResult.httpError 404
        ("No relevant YouTube video found for query: '" ++ query ++ "'"), n)

/-! Helper lemmas about the shared vendor-response check. -/

/-- Success characterisation of the shared response check: `True` comes back
exactly for a 200 status whose decoded object body carries `ErrCode = 0`. -/
theorem vendorSuccess_ok_true_iff (stat : Nat) (body : Option Json) :
    vendorSuccess (HttpOutcome.response stat body) = PyResult.ok true ↔
      stat = 200 ∧ ∃ kvs, body = some (Json.obj kvs) ∧
        (kvs.lookup "ErrCode").getD (Json.int (-1)) = Json.int 0 := by
  constructor
  · intro h
    by_cases hs : stat = 200
    · subst hs
      rcases body with _ | j
      · simp [vendorSuccess] at h
      · rcases j with s | n | xs | kvs
        · simp [vendorSuccess] at h
        · simp [vendorSuccess] at h
        · simp [vendorSuccess] at h
        · refine ⟨rfl, kvs, rfl, ?_⟩
          simp [vendorSuccess] at h
          match hv : (kvs.lookup "ErrCode").getD (Json.int (-1)) with
          | Json.int n =>
            rw [hv] at h
            simp [pyNeZero] at h
            rw [h]
          | Json.str s => rw [hv] at h; simp [pyNeZero] at h
          | Json.arr xs => rw [hv] at h; simp [pyNeZero] at h
          | Json.obj o => rw [hv] at h; simp [pyNeZero] at h
    · simp [vendorSuccess, hs] at h
  · rintro ⟨hs, kvs, hb, hz⟩
    subst hs; subst hb
    simp [vendorSuccess, hz, pyNeZero]

/-- Failure on any non-200 status, whatever the body holds (even an
undecodable one): the source returns `False` before touching the body. -/
theorem vendorSuccess_of_ne200 (stat : Nat) (body : Option Json)
    (h : stat ≠ 200) :
    vendorSuccess (HttpOutcome.response stat body) = PyResult.ok false := by
  simp [vendorSuccess, h]

/-- C1: for every display operation (drop, notify, toast, marquee, text,
app, touch, status, dj), the operation reports success iff the response
status is 200 and the decoded body carries `ErrCode = 0`; a missing
`ErrCode` defaults to `-1` and hence fails, and a non-200 status fails
without the body being parsed.  Each operation delegates to the shared
check `vendorSuccess`, whose success set is exactly as stated. -/
theorem display_ops_success_iff (stat : Nat) (body : Option Json) :
    (∀ (item display : String) (x y : Int),
      (SmartScreenClient.drop item display x y
        (HttpOutcome.response stat body)).2 =
        vendorSuccess (HttpOutcome.response stat body)) ∧
    (∀ message display priority : String,
      (SmartScreenClient.notify message display priority
        (HttpOutcome.response stat body)).2 =
        vendorSuccess (HttpOutcome.response stat body)) ∧
    (∀ message display heading icon transition duration : String,
      (SmartScreenClient.toast message display heading icon transition
        duration (HttpOutcome.response stat body)).2 =
        vendorSuccess (HttpOutcome.response stat body)) ∧
    (∀ message display duration color size bgcolor : String,
      (SmartScreenClient.marquee message display duration color size bgcolor
        (HttpOutcome.response stat body)).2 =
        vendorSuccess (HttpOutcome.response stat body)) ∧
    (∀ message display duration color size bgcolor align frame animate
        aniduration : String,
      (SmartScreenClient.text message display duration color size bgcolor
        align frame animate aniduration (HttpOutcome.response stat body)).2 =
        vendorSuccess (HttpOutcome.response stat body)) ∧
    (∀ url display duration frame : String,
      (SmartScreenClient.app url display duration frame
        (HttpOutcome.response stat body)).2 =
        vendorSuccess (HttpOutcome.response stat body)) ∧
    (∀ option display value : String,
      (SmartScreenClient.touch option display value
        (HttpOutcome.response stat body)).2 =
        vendorSuccess (HttpOutcome.response stat body)) ∧
    (∀ option display value : String,
      (SmartScreenClient.status option display value
        (HttpOutcome.response stat body)).2 =
        vendorSuccess (HttpOutcome.response stat body)) ∧
    (∀ option display value : String,
      (SmartScreenClient.dj option display value
        (HttpOutcome.response stat body)).2 =
        vendorSuccess (HttpOutcome.response stat body)) ∧
    (vendorSuccess (HttpOutcome.response stat body) = PyResult.ok true ↔
      stat = 200 ∧ ∃ kvs, body = some (Json.obj kvs) ∧
        (kvs.lookup "ErrCode").getD (Json.int (-1)) = Json.int 0) ∧
    (stat ≠ 200 →
      vendorSuccess (HttpOutcome.response stat body) = PyResult.ok false) :=
  ⟨fun _ _ _ _ => rfl, fun _ _ _ => rfl, fun _ _ _ _ _ _ => rfl,
   fun _ _ _ _ _ _ => rfl, fun _ _ _ _ _ _ _ _ _ _ => rfl,
   fun _ _ _ _ => rfl, fun _ _ _ => rfl, fun _ _ _ => rfl, fun _ _ _ => rfl,
   vendorSuccess_ok_true_iff stat body, vendorSuccess_of_ne200 stat body⟩

/-- Witness for C1: a 200 response carrying `ErrCode = 0` makes `drop`
report success, and a 500 response with an unparseable body makes `notify`
report failure. -/
theorem display_ops_success_iff_witness :
    (SmartScreenClient.drop "i" "d" 0 0 (HttpOutcome.response 200
      (some (Json.obj [("ErrCode", Json.int 0)])))).2 = PyResult.ok true ∧
    (SmartScreenClient.notify "m" "d" "p"
      (HttpOutcome.response 500 none)).2 = PyResult.ok false := by
  obtain ⟨hd, -, -, -, -, -, -, -, -, hiff, -⟩ :=
    display_ops_success_iff 200 (some (Json.obj [("ErrCode", Json.int 0)]))
  obtain ⟨-, hn, -, -, -, -, -, -, -, -, himp⟩ :=
    display_ops_success_iff 500 none
  exact ⟨(hd "i" "d" 0 0).trans
      (hiff.mpr ⟨rfl, [("ErrCode", Json.int 0)], rfl, rfl⟩),
    (hn "m" "d" "p").trans (himp (by decide))⟩

/-- C2 counterexample: on a transport error the drop endpoint does NOT
produce the 500 "Failed to drop item" condition — the `httpx.RequestError`
raised inside `SmartScreenClient.drop` is caught nowhere (the client
methods, unlike `search_youtube_video`, have no try/except), so it escapes
the handler unhandled. -/
theorem transport_error_not_caught_cex :
    drop_item ⟨"d1", "https://example.com/a.png", 0, 0⟩
        HttpOutcome.transportError =
      EndpointResult.unhandled "httpx.RequestError" ∧
    drop_item ⟨"d1", "https://example.com/a.png", 0, 0⟩
        HttpOutcome.transportError ≠
      EndpointResult.httpError 500 "Failed to drop item" := by
  refine ⟨rfl, fun h => ?_⟩
  simp [drop_item, SmartScreenClient.drop, vendorSuccess] at h

/-- C2 amended: for every display operation, a transport error of the
outbound call is not handled: the exception propagates out of the client
method and the endpoint handler, so the caller gets the framework's
generic internal-server error rather than the 500 "Failed to <verb>"
operation-failure condition. -/
theorem transport_error_not_caught :
    ∀ (rd : DropRequest) (rn : NotifyRequest) (rt : ToastRequest)
      (rm : MarqueeRequest) (rx : TextRequest) (ra : AppRequest)
      (rc : TouchRequest) (rs : StatusRequest) (rj : DjRequest),
    drop_item rd HttpOutcome.transportError =
      EndpointResult.unhandled "httpx.RequestError" ∧
    notify_user rn HttpOutcome.transportError =
      EndpointResult.unhandled "httpx.RequestError" ∧
    toast_message rt HttpOutcome.transportError =
      EndpointResult.unhandled "httpx.RequestError" ∧
    marquee_text rm HttpOutcome.transportError =
      EndpointResult.unhandled "httpx.RequestError" ∧
    display_text rx HttpOutcome.transportError =
      EndpointResult.unhandled "httpx.RequestError" ∧
    launch_app ra HttpOutcome.transportError =
      EndpointResult.unhandled "httpx.RequestError" ∧
    touch_command rc HttpOutcome.transportError =
      EndpointResult.unhandled "httpx.RequestError" ∧
    status_command rs HttpOutcome.transportError =
      EndpointResult.unhandled "httpx.RequestError" ∧
    dj_command rj HttpOutcome.transportError =
      EndpointResult.unhandled "httpx.RequestError" :=
  fun _ _ _ _ _ _ _ _ _ =>
    ⟨rfl, rfl, rfl, rfl, rfl, rfl, rfl, rfl, rfl⟩

/-- C3: for every valid `DropRequest` input, the constructed drop vendor
command has `pmode = "loop"`, `animate = "fade"`, `aniduration = "2"`,
`bgcolor = "white"`, `duration = "0"` and `frame = "main"`, whatever the
caller supplied: the transmitted payload's `data` is `dropCommand item`,
whose fixed fields are independent of `item`, `display`, `x` and `y`. -/
theorem drop_fixed_fields :
    ∀ (item display : String) (x y : Int) (net : HttpOutcome),
      ((SmartScreenClient.drop item display x y net).1).lookup "data" =
        some (SmartScreenClient.dropCommand item) ∧
      (SmartScreenClient.dropCommand item).lookup "pmode" =
        some (Json.str "loop") ∧
      (SmartScreenClient.dropCommand item).lookup "animate" =
        some (Json.str "fade") ∧
      (SmartScreenClient.dropCommand item).lookup "aniduration" =
        some (Json.str "2") ∧
      (SmartScreenClient.dropCommand item).lookup "bgcolor" =
        some (Json.str "white") ∧
      (SmartScreenClient.dropCommand item).lookup "duration" =
        some (Json.str "0") ∧
      (SmartScreenClient.dropCommand item).lookup "frame" =
        some (Json.str "main") :=
  fun _ _ _ _ _ => ⟨rfl, rfl, rfl, rfl, rfl, rfl, rfl⟩

/-- C4: two notify requests agreeing on display and message but differing
in priority produce identical vendor payloads; the notify command is
exactly `cmd:"notify", msg, duration:"30", color:"blue", size:"3"` and the
priority argument never reaches it. -/
theorem notify_priority_unused :
    ∀ (message display p1 p2 : String) (net : HttpOutcome),
      (SmartScreenClient.notify message display p1 net).1 =
        (SmartScreenClient.notify message display p2 net).1 ∧
      SmartScreenClient.notifyCommand message =
        Json.obj [("cmd", Json.str "notify"), ("msg", Json.str message),
          ("duration", Json.str "30"), ("color", Json.str "blue"),
          ("size", Json.str "3")] ∧
      ((SmartScreenClient.notify message display p1 net).1).lookup "data" =
        some (SmartScreenClient.notifyCommand message) :=
  fun _ _ _ _ _ => ⟨rfl, rfl, rfl⟩

/-- C7: for each of the nine write operations, the transmitted vendor
command (the `data` member of the POSTed payload) holds exactly the
documented key set, each value being the caller-supplied string verbatim
or the documented fixed constant. -/
theorem commands_exact_keys :
    ∀ (item display message heading icon transition duration color size
        bgcolor align frame animate aniduration url option value : String)
      (x y : Int) (net : HttpOutcome),
      ((SmartScreenClient.drop item display x y net).1).lookup "data" =
        some (Json.obj [("cmd", Json.str "drop"), ("type", Json.str "url"),
          ("src", Json.arr [Json.str item]), ("duration", Json.str "0"),
          ("frame", Json.str "main"), ("animate", Json.str "fade"),
          ("aniduration", Json.str "2"), ("pmode", Json.str "loop"),
          ("bgcolor", Json.str "white")]) ∧
      ((SmartScreenClient.notify message display value net).1).lookup "data" =
        some (Json.obj [("cmd", Json.str "notify"), ("msg", Json.str message),
          ("duration", Json.str "30"), ("color", Json.str "blue"),
          ("size", Json.str "3")]) ∧
      ((SmartScreenClient.toast message display heading icon transition
          duration net).1).lookup "data" =
        some (Json.obj [("cmd", Json.str "toast"), ("msg", Json.str message),
          ("heading", Json.str heading), ("icon", Json.str icon),
          ("transition", Json.str transition),
          ("duration", Json.str duration)]) ∧
      ((SmartScreenClient.marquee message display duration color size bgcolor
          net).1).lookup "data" =
        some (Json.obj [("cmd", Json.str "marquee"),
          ("msg", Json.str message), ("duration", Json.str duration),
          ("color", Json.str color), ("size", Json.str size),
          ("bgcolor", Json.str bgcolor)]) ∧
      ((SmartScreenClient.text message display duration color size bgcolor
          align frame animate aniduration net).1).lookup "data" =
        some (Json.obj [("cmd", Json.str "text"), ("msg", Json.str message),
          ("duration", Json.str duration), ("color", Json.str color),
          ("size", Json.str size), ("bgcolor", Json.str bgcolor),
          ("align", Json.str align), ("frame", Json.str frame),
          ("animate", Json.str animate),
          ("aniduration", Json.str aniduration)]) ∧
      ((SmartScreenClient.app url display duration frame net).1).lookup
          "data" =
        some (Json.obj [("cmd", Json.str "app"), ("url", Json.str url),
          ("duration", Json.str duration), ("frame", Json.str frame)]) ∧
      ((SmartScreenClient.touch option display value net).1).lookup "data" =
        some (Json.obj [("cmd", Json.str "touch"),
          ("option", Json.str option), ("value", Json.str value)]) ∧
      ((SmartScreenClient.status option display value net).1).lookup "data" =
        some (Json.obj [("cmd", Json.str "status"),
          ("option", Json.str option), ("value", Json.str value)]) ∧
      ((SmartScreenClient.dj option display value net).1).lookup "data" =
        some (Json.obj [("cmd", Json.str "dj"), ("option", Json.str option),
          ("value", Json.str value)]) :=
  fun _ _ _ _ _ _ _ _ _ _ _ _ _ _ _ _ _ _ _ _ =>
    ⟨rfl, rfl, rfl, rfl, rfl, rfl, rfl, rfl, rfl⟩

/-- C8: every display operation transmits exactly the destination envelope
(a `to` member wrapping the display name and a `data` member holding the
vendor command) and nothing else at top level, for each of the nine
operations. -/
theorem ops_envelope :
    ∀ (item display message priority heading icon transition duration color
        size bgcolor align frame animate aniduration url option value :
        String) (x y : Int) (net : HttpOutcome),
      (SmartScreenClient.drop item display x y net).1 =
        envelope display (SmartScreenClient.dropCommand item) ∧
      (SmartScreenClient.notify message display priority net).1 =
        envelope display (SmartScreenClient.notifyCommand message) ∧
      (SmartScreenClient.toast message display heading icon transition
          duration net).1 =
        envelope display (SmartScreenClient.toastCommand message heading icon
          transition duration) ∧
      (SmartScreenClient.marquee message display duration color size bgcolor
          net).1 =
        envelope display (SmartScreenClient.marqueeCommand message duration
          color size bgcolor) ∧
      (SmartScreenClient.text message display duration color size bgcolor
          align frame animate aniduration net).1 =
        envelope display (SmartScreenClient.textCommand message duration
          color size bgcolor align frame animate aniduration) ∧
      (SmartScreenClient.app url display duration frame net).1 =
        envelope display (SmartScreenClient.appCommand url duration frame) ∧
      (SmartScreenClient.touch option display value net).1 =
        envelope display (SmartScreenClient.touchCommand option value) ∧
      (SmartScreenClient.status option display value net).1 =
        envelope display (SmartScreenClient.statusCommand option value) ∧
      (SmartScreenClient.dj option display value net).1 =
        envelope display (SmartScreenClient.djCommand option value) :=
  fun _ _ _ _ _ _ _ _ _ _ _ _ _ _ _ _ _ _ _ _ _ =>
    ⟨rfl, rfl, rfl, rfl, rfl, rfl, rfl, rfl, rfl⟩

/-- C9: every POST operation endpoint returns, when the translator reports
success, a 200 body holding a `message` key plus the echoed request
fields, and when the translator reports failure, a 500 `HTTPException`
whose detail names the failed operation. -/
theorem post_endpoints_uniform (net : HttpOutcome) :
    (vendorSuccess net = PyResult.ok true →
      (∀ req : DropRequest, drop_item req net = EndpointResult.ok (Json.obj
        [("message", Json.str "Item dropped successfully"),
         ("item", Json.str req.item), ("x", Json.int req.x),
         ("y", Json.int req.y)])) ∧
      (∀ req : NotifyRequest, notify_user req net = EndpointResult.ok
        (Json.obj [("message", Json.str "Notification sent successfully"),
         ("notification", Json.str req.message)])) ∧
      (∀ req : ToastRequest, toast_message req net = EndpointResult.ok
        (Json.obj [("message", Json.str "Toast displayed successfully"),
         ("toast", Json.str req.message)])) ∧
      (∀ req : MarqueeRequest, marquee_text req net = EndpointResult.ok
        (Json.obj [("message", Json.str "Marquee displayed successfully"),
         ("marquee", Json.str req.message)])) ∧
      (∀ req : TextRequest, display_text req net = EndpointResult.ok
        (Json.obj [("message", Json.str "Text displayed successfully"),
         ("text", Json.str req.message)])) ∧
      (∀ req : AppRequest, launch_app req net = EndpointResult.ok
        (Json.obj [("message", Json.str "App launched successfully"),
         ("url", Json.str req.url)])) ∧
      (∀ req : TouchRequest, touch_command req net = EndpointResult.ok
        (Json.obj [("message",
           Json.str "Touch command executed successfully"),
         ("option", Json.str req.option), ("value", Json.str req.value)])) ∧
      (∀ req : StatusRequest, status_command req net = EndpointResult.ok
        (Json.obj [("message",
           Json.str "Status command executed successfully"),
         ("option", Json.str req.option), ("value", Json.str req.value)])) ∧
      (∀ req : DjRequest, dj_command req net = EndpointResult.ok (Json.obj
        [("message", Json.str "DJ command executed successfully"),
         ("option", Json.str req.option),
         ("value", Json.str req.value)]))) ∧
    (vendorSuccess net = PyResult.ok false →
      (∀ req : DropRequest, drop_item req net =
        EndpointResult.httpError 500 "Failed to drop item") ∧
      (∀ req : NotifyRequest, notify_user req net =
        EndpointResult.httpError 500 "Failed to send notification") ∧
      (∀ req : ToastRequest, toast_message req net =
        EndpointResult.httpError 500 "Failed to show toast message") ∧
      (∀ req : MarqueeRequest, marquee_text req net =
        EndpointResult.httpError 500 "Failed to show marquee text") ∧
      (∀ req : TextRequest, display_text req net =
        EndpointResult.httpError 500 "Failed to show text") ∧
      (∀ req : AppRequest, launch_app req net =
        EndpointResult.httpError 500 "Failed to launch app") ∧
      (∀ req : TouchRequest, touch_command req net =
        EndpointResult.httpError 500 "Failed to execute touch command") ∧
      (∀ req : StatusRequest, status_command req net =
        EndpointResult.httpError 500 "Failed to execute status command") ∧
      (∀ req : DjRequest, dj_command req net =
        EndpointResult.httpError 500 "Failed to execute DJ command")) := by
  constructor
  · intro h
    refine ⟨fun req => ?_, fun req => ?_, fun req => ?_, fun req => ?_,
      fun req => ?_, fun req => ?_, fun req => ?_, fun req => ?_,
      fun req => ?_⟩
    · simp [drop_item, SmartScreenClient.drop, h]
    · simp [notify_user, SmartScreenClient.notify, h]
    · simp [toast_message, SmartScreenClient.toast, h]
    · simp [marquee_text, SmartScreenClient.marquee, h]
    · simp [display_text, SmartScreenClient.text, h]
    · simp [launch_app, SmartScreenClient.app, h]
    · simp [touch_command, SmartScreenClient.touch, h]
    · simp [status_command, SmartScreenClient.status, h]
    · simp [dj_command, SmartScreenClient.dj, h]
  · intro h
    refine ⟨fun req => ?_, fun req => ?_, fun req => ?_, fun req => ?_,
      fun req => ?_, fun req => ?_, fun req => ?_, fun req => ?_,
      fun req => ?_⟩
    · simp [drop_item, SmartScreenClient.drop, h]
    · simp [notify_user, SmartScreenClient.notify, h]
    · simp [toast_message, SmartScreenClient.toast, h]
    · simp [marquee_text, SmartScreenClient.marquee, h]
    · simp [display_text, SmartScreenClient.text, h]
    · simp [launch_app, SmartScreenClient.app, h]
    · simp [touch_command, SmartScreenClient.touch, h]
    · simp [status_command, SmartScreenClient.status, h]
    · simp [dj_command, SmartScreenClient.dj, h]

/-- Witness for C9: a 200 `ErrCode = 0` response makes the drop endpoint
return the 200 echo body, and a 200 `ErrCode = 1` response makes the
notify endpoint raise the 500 detail. -/
theorem post_endpoints_uniform_witness :
    drop_item ⟨"d", "i", 1, 2⟩ (HttpOutcome.response 200
        (some (Json.obj [("ErrCode", Json.int 0)]))) =
      EndpointResult.ok (Json.obj
        [("message", Json.str "Item dropped successfully"),
         ("item", Json.str "i"), ("x", Json.int 1), ("y", Json.int 2)]) ∧
    notify_user ⟨"d", "m", "high"⟩ (HttpOutcome.response 200
        (some (Json.obj [("ErrCode", Json.int 1),
          ("ErrMsg", Json.str "x")]))) =
      EndpointResult.httpError 500 "Failed to send notification" :=
  ⟨((post_endpoints_uniform (HttpOutcome.response 200
      (some (Json.obj [("ErrCode", Json.int 0)])))).1 rfl).1 ⟨"d", "i", 1, 2⟩,
   (((post_endpoints_uniform (HttpOutcome.response 200
      (some (Json.obj [("ErrCode", Json.int 1), ("ErrMsg", Json.str "x")])))).2
        rfl).2).1 ⟨"d", "m", "high"⟩⟩

/-- C5: the search endpoint returns the video URL for a 200 response whose
single item carries `id.videoId = "abc123"`, a 404 for a valid empty
`items` list, and — with no API credential configured — a 500 with zero
outbound network calls. -/
theorem youtube_search_scenarios (k q : String) (hk : k ≠ "") :
    get_youtube_video_link (some k) q (HttpOutcome.response 200
        (some (Json.obj [("items", Json.arr [Json.obj [("id",
          Json.obj [("videoId", Json.str "abc123")])]])]))) =
      (EndpointResult.ok (Json.obj [("video_url",
        Json.str "https://www.youtube.com/watch?v=abc123")]), 1) ∧
    get_youtube_video_link (some k) q (HttpOutcome.response 200
        (some (Json.obj [("items", Json.arr [])]))) =
      (EndpointResult.httpError 404
        ("No relevant YouTube video found for query: '" ++ q ++ "'"), 1) ∧
    (∀ net, get_youtube_video_link none q net =
      (EndpointResult.httpError 500
        "API key configuration error. Please check server logs.", 0)) := by
  have h1 : k.isEmpty = false := by
    cases h2 : k.isEmpty
    · rfl
    · exact absurd ((String.isEmpty_iff k).mp h2) hk
  have hb : pyStrTruthy (some k) = true := by
    simp [pyStrTruthy, h1]
  refine ⟨?_, ?_, fun net => ?_⟩
  · simp only [get_youtube_video_link, search_youtube_video, hb]
    rfl
  · simp only [get_youtube_video_link, search_youtube_video, hb]
    rfl
  · simp [get_youtube_video_link, pyStrTruthy]

/-- Witness for C5 at a concrete key and query. -/
theorem youtube_search_scenarios_witness :
    get_youtube_video_link (some "KEY") "rick" (HttpOutcome.response 200
        (some (Json.obj [("items", Json.arr [Json.obj [("id",
          Json.obj [("videoId", Json.str "abc123")])]])]))) =
      (EndpointResult.ok (Json.obj [("video_url",
        Json.str "https://www.youtube.com/watch?v=abc123")]), 1) ∧
    get_youtube_video_link none "rick" HttpOutcome.transportError =
      (EndpointResult.httpError 500
        "API key configuration error. Please check server logs.", 0) :=
  ⟨(youtube_search_scenarios "KEY" "rick" (by decide)).1,
   (youtube_search_scenarios "KEY" "rick" (by decide)).2.2
     HttpOutcome.transportError⟩

/-- C6 counterexample: with a credential configured, a transport failure of
the outbound search and a valid empty result produce the same
caller-visible response (the identical 404), so the two outcomes are not
distinguishable by the caller. -/
theorem youtube_failure_collapse_cex :
    (get_youtube_video_link (some "KEY") "q" HttpOutcome.transportError).1 =
      (get_youtube_video_link (some "KEY") "q" (HttpOutcome.response 200
        (some (Json.obj [("items", Json.arr [])])))).1 ∧
    (get_youtube_video_link (some "KEY") "q" HttpOutcome.transportError).1 =
      EndpointResult.httpError 404
        "No relevant YouTube video found for query: 'q'" :=
  ⟨rfl, rfl⟩

/-- C6 amended: the video lookup maps a missing API credential to a
distinct 500 condition, but a transport error, a non-2xx upstream status
and a valid empty result all collapse to one and the same 404 condition,
indistinguishable to the caller. -/
theorem youtube_outcomes_amended (k q : String) (hk : k ≠ "") :
    (∀ net, (get_youtube_video_link none q net).1 =
      EndpointResult.httpError 500
        "API key configuration error. Please check server logs.") ∧
    (get_youtube_video_link (some k) q HttpOutcome.transportError).1 =
      EndpointResult.httpError 404
        ("No relevant YouTube video found for query: '" ++ q ++ "'") ∧
    (∀ (stat : Nat) (body : Option Json), stat < 200 ∨ 300 ≤ stat →
      (get_youtube_video_link (some k) q
          (HttpOutcome.response stat body)).1 =
        EndpointResult.httpError 404
          ("No relevant YouTube video found for query: '" ++ q ++ "'")) ∧
    (get_youtube_video_link (some k) q (HttpOutcome.response 200
        (some (Json.obj [("items", Json.arr [])])))).1 =
      EndpointResult.httpError 404
        ("No relevant YouTube video found for query: '" ++ q ++ "'") ∧
    EndpointResult.httpError 500
        "API key configuration error. Please check server logs." ≠
      EndpointResult.httpError 404
        ("No relevant YouTube video found for query: '" ++ q ++ "'") := by
  have h1 : k.isEmpty = false := by
    cases h2 : k.isEmpty
    · rfl
    · exact absurd ((String.isEmpty_iff k).mp h2) hk
  have hb : pyStrTruthy (some k) = true := by
    simp [pyStrTruthy, h1]
  refine ⟨fun net => ?_, ?_, fun stat body hst => ?_, ?_, ?_⟩
  · simp [get_youtube_video_link, pyStrTruthy]
  · simp only [get_youtube_video_link, search_youtube_video, hb]
    rfl
  · have hcond : (stat < 200 || 300 ≤ stat) = true := by
      rcases hst with h | h <;> simp [h]
    simp only [get_youtube_video_link, search_youtube_video, hb, hcond]
    rfl
  · simp only [get_youtube_video_link, search_youtube_video, hb]
    rfl
  · intro h
    cases h

/-- Witness for C6 amended at a concrete key, query and failing status. -/
theorem youtube_outcomes_amended_witness :
    (get_youtube_video_link none "q" HttpOutcome.transportError).1 =
      EndpointResult.httpError 500
        "API key configuration error. Please check server logs." ∧
    (get_youtube_video_link (some "KEY") "q"
        (HttpOutcome.response 500 none)).1 =
      EndpointResult.httpError 404
        ("No relevant YouTube video found for query: '" ++ "q" ++ "'") :=
  ⟨(youtube_outcomes_amended "KEY" "q" (by decide)).1
      HttpOutcome.transportError,
   (youtube_outcomes_amended "KEY" "q" (by decide)).2.2.1 500 none
     (Or.inr (by decide))⟩

/-! Helper lemmas about the quote_plus model. -/

/-- Every character is rewritten to at least one character. -/
theorem quotePlusChar_length_pos (c : Char) : 1 ≤ (quotePlusChar c).length := by
  unfold quotePlusChar
  split
  · simp
  · split <;> simp

/-- Encoding never shortens a character list. -/
theorem length_le_quotePlusList (l : List Char) :
    l.length ≤ (quotePlusList l).length := by
  induction l with
  | nil => simp [quotePlusList]
  | cons c cs ih =>
    simp only [quotePlusList, List.length_append, List.length_cons]
    have := quotePlusChar_length_pos c
    omega

/-- A fixed point of the encoding leaves every character alone. -/
theorem quotePlusList_fixed {l : List Char} (h : quotePlusList l = l) :
    ∀ c ∈ l, quotePlusChar c = [c] := by
  induction l with
  | nil => intro c hc; cases hc
  | cons a cs ih =>
    intro c hc
    rw [quotePlusList] at h
    by_cases hsafe : isAlwaysSafe a
    · rw [show quotePlusChar a = [a] from by simp [quotePlusChar, hsafe]]
        at h
      simp only [List.cons_append, List.nil_append, List.cons.injEq,
        true_and] at h
      rcases List.mem_cons.mp hc with hc1 | hc1
      · subst hc1; simp [quotePlusChar, hsafe]
      · exact ih h c hc1
    · by_cases hsp : a = ' '
      · subst hsp
        rw [show quotePlusChar ' ' = ['+'] from by decide] at h
        simp only [List.cons_append, List.nil_append, List.cons.injEq] at h
        exact absurd h.1 (by decide)
      · rw [show quotePlusChar a =
            ['%', hexUpper (a.toNat / 16), hexUpper (a.toNat % 16)] from by
          simp [quotePlusChar, hsafe, hsp]] at h
        simp only [List.cons_append, List.nil_append, List.cons.injEq] at h
        have hlen := length_le_quotePlusList cs
        have hlen2 := congrArg List.length h.2
        simp only [List.length_cons] at hlen2
        exact (by omega : False).elim

/-- C10: the search query is quote_plus-encoded before being placed in the
outbound request parameters (which the HTTP client encodes once more on
the wire); hence for any query holding a space or any other character that
quote_plus escapes, the `q` parameter value transmitted is the encoded
string, not the caller's query verbatim. -/
theorem query_double_encoding (k q : String) (c : Char) (hc : c ∈ q.data)
    (hbad : isAlwaysSafe c = false) :
    (searchParams k q).lookup "q" = some (Json.str (quotePlus q)) ∧
    quotePlus q ≠ q := by
  refine ⟨rfl, fun h => ?_⟩
  have hdata : quotePlusList q.data = q.data := congrArg String.data h
  have hfix := quotePlusList_fixed hdata c hc
  by_cases hsp : c = ' '
  · subst hsp
    rw [show quotePlusChar ' ' = ['+'] from by decide] at hfix
    exact absurd hfix (by decide)
  · rw [show quotePlusChar c =
        ['%', hexUpper (c.toNat / 16), hexUpper (c.toNat % 16)] from by
      simp [quotePlusChar, hbad, hsp]] at hfix
    simp at hfix

/-- Witness for C10: the query "a b" holds a space, and the transmitted
`q` value is the already-encoded "a+b", not "a b". -/
theorem query_double_encoding_witness :
    ((' ' ∈ "a b".data) ∧ isAlwaysSafe ' ' = false) ∧
    ((searchParams "KEY" "a b").lookup "q" =
        some (Json.str (quotePlus "a b")) ∧
      quotePlus "a b" ≠ "a b") ∧
    quotePlus "a b" = "a+b" :=
  ⟨⟨by decide, by decide⟩,
   query_double_encoding "KEY" "a b" ' ' (by decide) (by decide), rfl⟩
